import Mathlib

/-!
# Verification of the apalis-tools binary decoders

Shallow embedding of the decoders in `nvtegraparts.c` and `trdx-configblock.c`:
the proprietary NVIDIA Tegra partition table ("PT") parser, the GPT header
check (signature + CRC32), the table-driven CRC32 engine, the UTF-16 name
decoder `c16_to_string`, and the Toradex config-block tag walk.

Byte buffers are modelled as `List ℕ` with every element `< 256`; multi-byte
fields are decoded little-endian, as on the ARM targets the tools are built
for.  Fallible device reads and out-of-range memory accesses are modelled
with `Option`.
-/

set_option maxRecDepth 100000

namespace ApalisTools

/-- Decidable equality on `Except`, so concrete decoder runs can be
checked with `decide`. -/
instance {ε α : Type} [DecidableEq ε] [DecidableEq α] : DecidableEq (Except ε α) :=
  fun a b =>
    match a, b with
    | .error e, .error e' =>
      if h : e = e' then isTrue (by rw [h]) else isFalse (by simp [h])
    | .ok x, .ok y =>
      if h : x = y then isTrue (by rw [h]) else isFalse (by simp [h])
    | .error _, .ok _ => isFalse (by simp)
    | .ok _, .error _ => isFalse (by simp)

/-! ## Little-endian byte readers -/

/-- Read a little-endian 16-bit value at byte offset `off`.
Out-of-range bytes read as 0; all uses below stay within the buffer. -/
def le16 (buf : List ℕ) (off : ℕ) : ℕ :=
  buf.getD off 0 + 256 * buf.getD (off + 1) 0

/-- Read a little-endian 32-bit value at byte offset `off`. -/
def le32 (buf : List ℕ) (off : ℕ) : ℕ :=
  buf.getD off 0 + 256 * buf.getD (off + 1) 0 + 65536 * buf.getD (off + 2) 0 +
    16777216 * buf.getD (off + 3) 0

/-- The four raw bytes at offsets `off .. off+3` (a `char name[4]` field). -/
def bytes4 (buf : List ℕ) (off : ℕ) : List ℕ :=
  [buf.getD off 0, buf.getD (off + 1) 0, buf.getD (off + 2) 0, buf.getD (off + 3) 0]

/-! ## PT decoder (`nvtegraparts.c`)

Layout of `struct nvtegra_ptable` (packed): `__unknown1` at 0, `__unknown2`
at 4, `version` at 8, `table_size` at 12, `__unknown3[16]` at 16,
`__unknown4[16]` at 32, `__unknown5[16]` at 48, `num_parts` at 64,
`__unknown6[4]` at 68, and the records start at 72.
`struct nvtegra_partinfo` is 80 bytes: `id` at +0, `name[4]` at +4,
`allocation_policy` at +8, `name2[4]` at +20, `fs_type` at +24,
`virt_start_sector` at +40, `virt_size` at +48, `start_sector` at +56,
`end_sector` at +64, `type` at +72. -/

/-- `#define PT_VERSION 0x00000100` from the source. -/
def PT_VERSION : ℕ := 0x00000100

/-- `#define MAX_NUM_PARTS 24` from the source. -/
def MAX_NUM_PARTS : ℕ := 24

/-- `#define BCT_ID 2` from the source. -/
def BCT_ID : ℕ := 2

/-- `static const uint8_t PT_BCT_NAME[4] = { 'B', 'C', 'T', '\0' }`. -/
def PT_BCT_NAME : List ℕ := [66, 67, 84, 0]

/-- `pt->version`: u32 at offset 8. -/
def ptVersion (buf : List ℕ) : ℕ := le32 buf 8

/-- `pt->num_parts`: u32 at offset 64. -/
def ptNumParts (buf : List ℕ) : ℕ := le32 buf 64

/-- Byte offset of `pt->partitions[i]`. -/
def partOff (i : ℕ) : ℕ := 72 + 80 * i

/-- `pt->partitions[i].id`. -/
def partId (buf : List ℕ) (i : ℕ) : ℕ := le32 buf (partOff i)

/-- `pt->partitions[i].name` (4 raw bytes). -/
def partName (buf : List ℕ) (i : ℕ) : List ℕ := bytes4 buf (partOff i + 4)

/-- `pt->partitions[i].name2` (4 raw bytes). -/
def partName2 (buf : List ℕ) (i : ℕ) : List ℕ := bytes4 buf (partOff i + 20)

/-- `pt->partitions[i].start_sector`. -/
def partStartSector (buf : List ℕ) (i : ℕ) : ℕ := le32 buf (partOff i + 56)

/-- A decoded partition record, the fields the tool reads and prints. -/
structure PtRecord where
  id : ℕ
  name : List ℕ
  allocation_policy : ℕ
  name2 : List ℕ
  fs_type : ℕ
  virt_start_sector : ℕ
  virt_size : ℕ
  start_sector : ℕ
  end_sector : ℕ
  ptype : ℕ
  deriving DecidableEq, Repr

/-- Decode `pt->partitions[i]`. -/
def mkRecord (buf : List ℕ) (i : ℕ) : PtRecord :=
  { id := partId buf i
    name := partName buf i
    allocation_policy := le32 buf (partOff i + 8)
    name2 := partName2 buf i
    fs_type := le32 buf (partOff i + 24)
    virt_start_sector := le32 buf (partOff i + 40)
    virt_size := le32 buf (partOff i + 48)
    start_sector := partStartSector buf i
    end_sector := le32 buf (partOff i + 64)
    ptype := le32 buf (partOff i + 72) }

/-- Hard failures of the PT parse. -/
inductive PtError where
  | versionMismatch
  | invalidBootConfigRecord
  deriving DecidableEq, Repr

/-- The loop body of
`for (i = 1; (i < MAX_NUM_PARTS) && (i < pt->num_parts); i++)`, breaking
(without error) at the first record with `id >= 128`.  The `fuel` argument
only bounds the structural recursion; the loop guard `i < MAX_NUM_PARTS`
is what actually stops the iteration, so any `fuel ≥ MAX_NUM_PARTS - i`
gives the loop's exact behaviour. -/
def ptLoopAux (buf : List ℕ) : ℕ → ℕ → List PtRecord
  | 0, _ => []
  | fuel + 1, i =>
    if i < MAX_NUM_PARTS ∧ i < ptNumParts buf then
      if 128 ≤ partId buf i then []
      else mkRecord buf i :: ptLoopAux buf fuel (i + 1)
    else []

/-- The record loop of `main`, started at index `i`. -/
def ptLoop (buf : List ℕ) (i : ℕ) : List PtRecord :=
  ptLoopAux buf MAX_NUM_PARTS i

/-- The PT parse performed by `main` on the 4096-byte boot-device buffer:
version check, strict validation of record 0 (`id == BCT_ID`, both 4-byte
name fields equal to `PT_BCT_NAME` — `memcmp` with `sizeof(PT_BCT_NAME)`,
i.e. all 4 bytes — and `start_sector == 0`), then the bounded record loop. -/
def parse_partition_table (buf : List ℕ) : Except PtError (List PtRecord) :=
  if ptVersion buf ≠ PT_VERSION then .error .versionMismatch
  else if partId buf 0 ≠ BCT_ID then .error .invalidBootConfigRecord
  else if partName buf 0 ≠ PT_BCT_NAME ∨ partName2 buf 0 ≠ PT_BCT_NAME then
    .error .invalidBootConfigRecord
  else if partStartSector buf 0 ≠ 0 then .error .invalidBootConfigRecord
  else .ok (mkRecord buf 0 :: ptLoop buf 1)

/-- A 4096-byte all-zero buffer whose version field (offset 8, little-endian)
holds `0x00010000`: bytes `00 00 01 00`. -/
def c1buf : List ℕ := (List.replicate 4096 0).set 10 1

/-- C1 counterexample: a buffer of 4096 bytes whose little-endian version
field equals `0x00010000` does *not* proceed past the version check: the
parse fails with `VersionMismatch`, because the code compares the field
against `PT_VERSION = 0x00000100`. -/
theorem c1_counterexample :
    c1buf.length = 4096 ∧ ptVersion c1buf = 0x00010000 ∧
      parse_partition_table c1buf = .error .versionMismatch := by
  refine ⟨?_, by decide, by decide⟩
  rw [c1buf, List.length_set, List.length_replicate]

/-- C1 (amended): for every input buffer of at least 4096 bytes, the parse
proceeds past the version check (i.e. does not fail with `VersionMismatch`)
if and only if the 32-bit little-endian version field at offset 8 equals
`0x00000100`. -/
theorem c1_version_check (buf : List ℕ) (_hlen : 4096 ≤ buf.length) :
    parse_partition_table buf ≠ .error PtError.versionMismatch ↔
      ptVersion buf = PT_VERSION := by
  constructor
  · intro hne
    by_contra h
    exact hne (by unfold parse_partition_table; simp [h])
  · intro h
    unfold parse_partition_table
    rw [if_neg (by simp [h])]
    split
    · simp
    · split
      · simp
      · split <;> simp

/-- Witness for `c1_version_check` at the concrete buffer `c1buf`. -/
theorem c1_version_check_witness :
    parse_partition_table c1buf = .error PtError.versionMismatch := by
  by_contra hne
  have hlen : 4096 ≤ c1buf.length := by
    rw [c1buf, List.length_set, List.length_replicate]
  exact absurd ((c1_version_check c1buf hlen).mp hne) (by decide)

/-! ## C4: record-0 (BCT) validation -/

/-- The record-0 conditions actually checked by the code: `id == BCT_ID`,
`memcmp(name, PT_BCT_NAME, sizeof(PT_BCT_NAME)) == 0` (all **4** bytes,
including the terminating NUL), the same for `name2`, and
`start_sector == 0`. -/
def rec0Valid (buf : List ℕ) : Prop :=
  partId buf 0 = BCT_ID ∧ partName buf 0 = PT_BCT_NAME ∧
    partName2 buf 0 = PT_BCT_NAME ∧ partStartSector buf 0 = 0

instance (buf : List ℕ) : Decidable (rec0Valid buf) := by
  unfold rec0Valid; infer_instance

/-- A valid-version buffer whose record 0 has `id = 2`, both names starting
with the 3 bytes `"BCT"` but with `7` as the 4th name byte, and
`start_sector = 0`. -/
def c4buf : List ℕ :=
  (((((((((List.replicate 4096 0).set 9 1).set 72 2).set 76 66).set 77 67).set
    78 84).set 79 7).set 92 66).set 93 67).set 94 84 |>.set 95 7

/-- C4 counterexample: record 0 of `c4buf` has `id = 2`, the first 3 bytes
of both name fields equal `"BCT"`, and `start_sector = 0`, yet the parse
fails with `InvalidBootConfigRecord`: the code compares all 4 name bytes,
and the 4th byte here is `7`, not the NUL the comparison requires. -/
theorem c4_counterexample :
    partId c4buf 0 = BCT_ID ∧
      (partName c4buf 0).take 3 = [66, 67, 84] ∧
      (partName2 c4buf 0).take 3 = [66, 67, 84] ∧
      partStartSector c4buf 0 = 0 ∧
      parse_partition_table c4buf = .error .invalidBootConfigRecord := by
  decide

/-- C4 (amended): under a valid version field, the parse fails with
`InvalidBootConfigRecord` (returning no partial result) exactly when record 0
violates one of: `id = 2`, `name` equal to the full 4 bytes `B C T 0`,
`name2` equal to the full 4 bytes `B C T 0`, `start_sector = 0`. -/
theorem c4_record0_check (buf : List ℕ) (hver : ptVersion buf = PT_VERSION) :
    parse_partition_table buf = .error PtError.invalidBootConfigRecord ↔
      ¬ rec0Valid buf := by
  unfold parse_partition_table rec0Valid
  rw [if_neg (by simp [hver])]
  by_cases h1 : partId buf 0 = BCT_ID
  · by_cases h2 : partName buf 0 = PT_BCT_NAME
    · by_cases h3 : partName2 buf 0 = PT_BCT_NAME
      · by_cases h4 : partStartSector buf 0 = 0
        · simp [h1, h2, h3, h4]
        · simp [h1, h2, h3, h4]
      · simp [h1, h2, h3]
    · simp [h1, h2]
  · simp [h1]

/-- Witness for `c4_record0_check` at the concrete buffer `c4buf`. -/
theorem c4_record0_check_witness :
    parse_partition_table c4buf = .error PtError.invalidBootConfigRecord :=
  (c4_record0_check c4buf (by decide)).mpr (by decide)

/-! ## C5: record iteration, truncation at `id ≥ 128`, count round-trip -/

/-- The indices the record loop emits, in spec form: starting at 1, bounded
by `min(MAX_NUM_PARTS, num_parts)`, truncated at the first id `≥ 128`. -/
def ptIterSpec (buf : List ℕ) : List ℕ :=
  (List.range' 1 (min MAX_NUM_PARTS (ptNumParts buf) - 1)).takeWhile
    (fun i => partId buf i < 128)

/-- The record loop equals its spec form, for any sufficient fuel. -/
theorem ptLoopAux_eq (buf : List ℕ) :
    ∀ (fuel i : ℕ), MAX_NUM_PARTS - i ≤ fuel →
      ptLoopAux buf fuel i =
        ((List.range' i (min MAX_NUM_PARTS (ptNumParts buf) - i)).takeWhile
          (fun j => partId buf j < 128)).map (mkRecord buf)
  | 0, i, hfuel => by
    have h24 : MAX_NUM_PARTS ≤ i := by omega
    have : min MAX_NUM_PARTS (ptNumParts buf) - i = 0 := by omega
    simp [ptLoopAux, this]
  | fuel + 1, i, hfuel => by
    unfold ptLoopAux
    by_cases h : i < MAX_NUM_PARTS ∧ i < ptNumParts buf
    · have hmin : min MAX_NUM_PARTS (ptNumParts buf) - i =
        (min MAX_NUM_PARTS (ptNumParts buf) - (i + 1)) + 1 := by omega
      rw [if_pos h, hmin, List.range'_succ]
      by_cases hid : 128 ≤ partId buf i
      · rw [if_pos hid, List.takeWhile_cons_of_neg (by simp; omega)]
        simp
      · rw [if_neg hid, List.takeWhile_cons_of_pos (by simp; omega)]
        rw [ptLoopAux_eq buf fuel (i + 1) (by omega)]
        simp
    · have : min MAX_NUM_PARTS (ptNumParts buf) - i = 0 := by omega
      rw [if_neg h]
      simp [this]

/-- C5 (amended): (a) for every buffer that passes the version and record-0
checks, the parse succeeds — a record id `≥ 128` stops the iteration without
failing — and outputs exactly record 0 followed by records `1..k-1`, where
`k` is the least of the declared `num_parts`, the hard maximum 24 and the
first index whose id is `≥ 128`; (b) if moreover `1 ≤ num_parts ≤ 24` and
every iterated id is `< 128`, the returned record count equals the declared
`num_parts` (count round-trip — amended: the declared count must be at least
1, since record 0 is always decoded and returned). -/
theorem c5_iteration :
    (∀ buf : List ℕ, ptVersion buf = PT_VERSION → rec0Valid buf →
      parse_partition_table buf =
        .ok (mkRecord buf 0 :: (ptIterSpec buf).map (mkRecord buf))) ∧
    (∀ buf : List ℕ, ptVersion buf = PT_VERSION → rec0Valid buf →
      1 ≤ ptNumParts buf → ptNumParts buf ≤ MAX_NUM_PARTS →
      (∀ i, 1 ≤ i → i < ptNumParts buf → partId buf i < 128) →
      ∃ l, parse_partition_table buf = .ok l ∧ l.length = ptNumParts buf) := by
  have hmain : ∀ buf : List ℕ, ptVersion buf = PT_VERSION → rec0Valid buf →
      parse_partition_table buf =
        .ok (mkRecord buf 0 :: (ptIterSpec buf).map (mkRecord buf)) := by
    intro buf hver ⟨h1, h2, h3, h4⟩
    unfold parse_partition_table
    rw [if_neg (by simp [hver]), if_neg (by simp [h1]),
      if_neg (by simp [h2, h3]), if_neg (by simp [h4])]
    rw [ptLoop, ptLoopAux_eq buf MAX_NUM_PARTS 1 (by omega)]
    rfl
  refine ⟨hmain, ?_⟩
  intro buf hver hrec0 hge1 hle24 hids
  refine ⟨_, hmain buf hver hrec0, ?_⟩
  have hmin : min MAX_NUM_PARTS (ptNumParts buf) = ptNumParts buf := by omega
  have hall : (List.range' 1 (ptNumParts buf - 1)).takeWhile
      (fun i => partId buf i < 128) = List.range' 1 (ptNumParts buf - 1) := by
    rw [List.takeWhile_eq_self_iff]
    intro x hx
    rw [List.mem_range'_1] at hx
    simp only [decide_eq_true_eq]
    exact hids x hx.1 (by omega)
  simp only [List.length_cons, List.length_map, ptIterSpec, hmin, hall,
    List.length_range']
  omega

/-- A fully valid PT buffer whose declared `num_parts` is `0`. -/
def c5buf : List ℕ :=
  ((((((List.replicate 4096 0).set 9 1).set 72 2).set 76 66).set 77 67).set
    78 84).set 92 66 |>.set 93 67 |>.set 94 84

/-- C5 counterexample: `c5buf` passes the version and record-0 checks and
declares `num_parts = 0`, yet the decoder still returns record 0, so the
returned record count is 1, not the declared 0 — the count round-trip fails
for `num_parts = 0`. -/
theorem c5_counterexample :
    ptVersion c5buf = PT_VERSION ∧ rec0Valid c5buf ∧ ptNumParts c5buf = 0 ∧
      parse_partition_table c5buf = .ok [mkRecord c5buf 0] ∧
      [mkRecord c5buf 0].length ≠ ptNumParts c5buf := by
  decide

/-- A fully valid PT buffer with `num_parts = 2` and a record 1 whose id is
`5 < 128` (record 1 starts at byte offset 152). -/
def c5wbuf : List ℕ :=
  (((((((List.replicate 4096 0).set 9 1).set 72 2).set 76 66).set 77 67).set
    78 84).set 92 66).set 93 67 |>.set 94 84 |>.set 64 2 |>.set 152 5

/-- Witness for `c5_iteration` at the concrete buffer `c5wbuf`. -/
theorem c5_iteration_witness :
    ∃ l, parse_partition_table c5wbuf = .ok l ∧ l.length = ptNumParts c5wbuf :=
  c5_iteration.2 c5wbuf (by decide) (by decide) (by decide) (by decide)
    (fun i h1 h2 => by
      have hi : i = 1 := by
        have : ptNumParts c5wbuf = 2 := by decide
        omega
      subst hi
      decide)

/-! ## CRC32 engine (`crc32_tab` / `crc32` in `nvtegraparts.c`) -/

/-- The 256-entry `static const uint32_t crc32_tab[]` from the source. -/
def crc32_tab : List ℕ := [
  0x00000000, 0x77073096, 0xee0e612c, 0x990951ba, 0x076dc419, 0x706af48f,
  0xe963a535, 0x9e6495a3, 0x0edb8832, 0x79dcb8a4, 0xe0d5e91e, 0x97d2d988,
  0x09b64c2b, 0x7eb17cbd, 0xe7b82d07, 0x90bf1d91, 0x1db71064, 0x6ab020f2,
  0xf3b97148, 0x84be41de, 0x1adad47d, 0x6ddde4eb, 0xf4d4b551, 0x83d385c7,
  0x136c9856, 0x646ba8c0, 0xfd62f97a, 0x8a65c9ec, 0x14015c4f, 0x63066cd9,
  0xfa0f3d63, 0x8d080df5, 0x3b6e20c8, 0x4c69105e, 0xd56041e4, 0xa2677172,
  0x3c03e4d1, 0x4b04d447, 0xd20d85fd, 0xa50ab56b, 0x35b5a8fa, 0x42b2986c,
  0xdbbbc9d6, 0xacbcf940, 0x32d86ce3, 0x45df5c75, 0xdcd60dcf, 0xabd13d59,
  0x26d930ac, 0x51de003a, 0xc8d75180, 0xbfd06116, 0x21b4f4b5, 0x56b3c423,
  0xcfba9599, 0xb8bda50f, 0x2802b89e, 0x5f058808, 0xc60cd9b2, 0xb10be924,
  0x2f6f7c87, 0x58684c11, 0xc1611dab, 0xb6662d3d, 0x76dc4190, 0x01db7106,
  0x98d220bc, 0xefd5102a, 0x71b18589, 0x06b6b51f, 0x9fbfe4a5, 0xe8b8d433,
  0x7807c9a2, 0x0f00f934, 0x9609a88e, 0xe10e9818, 0x7f6a0dbb, 0x086d3d2d,
  0x91646c97, 0xe6635c01, 0x6b6b51f4, 0x1c6c6162, 0x856530d8, 0xf262004e,
  0x6c0695ed, 0x1b01a57b, 0x8208f4c1, 0xf50fc457, 0x65b0d9c6, 0x12b7e950,
  0x8bbeb8ea, 0xfcb9887c, 0x62dd1ddf, 0x15da2d49, 0x8cd37cf3, 0xfbd44c65,
  0x4db26158, 0x3ab551ce, 0xa3bc0074, 0xd4bb30e2, 0x4adfa541, 0x3dd895d7,
  0xa4d1c46d, 0xd3d6f4fb, 0x4369e96a, 0x346ed9fc, 0xad678846, 0xda60b8d0,
  0x44042d73, 0x33031de5, 0xaa0a4c5f, 0xdd0d7cc9, 0x5005713c, 0x270241aa,
  0xbe0b1010, 0xc90c2086, 0x5768b525, 0x206f85b3, 0xb966d409, 0xce61e49f,
  0x5edef90e, 0x29d9c998, 0xb0d09822, 0xc7d7a8b4, 0x59b33d17, 0x2eb40d81,
  0xb7bd5c3b, 0xc0ba6cad, 0xedb88320, 0x9abfb3b6, 0x03b6e20c, 0x74b1d29a,
  0xead54739, 0x9dd277af, 0x04db2615, 0x73dc1683, 0xe3630b12, 0x94643b84,
  0x0d6d6a3e, 0x7a6a5aa8, 0xe40ecf0b, 0x9309ff9d, 0x0a00ae27, 0x7d079eb1,
  0xf00f9344, 0x8708a3d2, 0x1e01f268, 0x6906c2fe, 0xf762575d, 0x806567cb,
  0x196c3671, 0x6e6b06e7, 0xfed41b76, 0x89d32be0, 0x10da7a5a, 0x67dd4acc,
  0xf9b9df6f, 0x8ebeeff9, 0x17b7be43, 0x60b08ed5, 0xd6d6a3e8, 0xa1d1937e,
  0x38d8c2c4, 0x4fdff252, 0xd1bb67f1, 0xa6bc5767, 0x3fb506dd, 0x48b2364b,
  0xd80d2bda, 0xaf0a1b4c, 0x36034af6, 0x41047a60, 0xdf60efc3, 0xa867df55,
  0x316e8eef, 0x4669be79, 0xcb61b38c, 0xbc66831a, 0x256fd2a0, 0x5268e236,
  0xcc0c7795, 0xbb0b4703, 0x220216b9, 0x5505262f, 0xc5ba3bbe, 0xb2bd0b28,
  0x2bb45a92, 0x5cb36a04, 0xc2d7ffa7, 0xb5d0cf31, 0x2cd99e8b, 0x5bdeae1d,
  0x9b64c2b0, 0xec63f226, 0x756aa39c, 0x026d930a, 0x9c0906a9, 0xeb0e363f,
  0x72076785, 0x05005713, 0x95bf4a82, 0xe2b87a14, 0x7bb12bae, 0x0cb61b38,
  0x92d28e9b, 0xe5d5be0d, 0x7cdcefb7, 0x0bdbdf21, 0x86d3d2d4, 0xf1d4e242,
  0x68ddb3f8, 0x1fda836e, 0x81be16cd, 0xf6b9265b, 0x6fb077e1, 0x18b74777,
  0x88085ae6, 0xff0f6a70, 0x66063bca, 0x11010b5c, 0x8f659eff, 0xf862ae69,
  0x616bffd3, 0x166ccf45, 0xa00ae278, 0xd70dd2ee, 0x4e048354, 0x3903b3c2,
  0xa7672661, 0xd06016f7, 0x4969474d, 0x3e6e77db, 0xaed16a4a, 0xd9d65adc,
  0x40df0b66, 0x37d83bf0, 0xa9bcae53, 0xdebb9ec5, 0x47b2cf7f, 0x30b5ffe9,
  0xbdbdf21c, 0xcabac28a, 0x53b39330, 0x24b4a3a6, 0xbad03605, 0xcdd70693,
  0x54de5729, 0x23d967bf, 0xb3667a2e, 0xc4614ab8, 0x5d681b02, 0x2a6f2b94,
  0xb40bbe37, 0xc30c8ea1, 0x5a05df1b, 0x2d02ef8d]

/-- Table lookup `crc32_tab[i]`. -/
def crc32_tabFn (i : ℕ) : ℕ := crc32_tab.getD i 0

/-- One step of the loop body:
`crc = crc32_tab[(crc ^ *p++) & 0xFF] ^ (crc >> 8)`. -/
def crc32_step (crc b : ℕ) : ℕ :=
  crc32_tabFn ((crc ^^^ b) &&& 0xFF) ^^^ (crc >>> 8)

/-- `crc32(buf, len)`: initial register `~0U`, byte-by-byte table steps,
final XOR with `~0U`. -/
def crc32 (l : List ℕ) : ℕ :=
  (l.foldl crc32_step 0xFFFFFFFF) ^^^ 0xFFFFFFFF

/-- One entry of the reflected-polynomial reference table: byte value `i`
run through 8 shift-and-conditionally-XOR-0xEDB88320 steps. -/
def crc32_poly_entry (i : ℕ) : ℕ :=
  (fun c => if c % 2 = 1 then (c >>> 1) ^^^ 0xEDB88320 else c >>> 1)^[8] i

/-- C7: the CRC32 engine is the standard reflected IEEE-802.3 CRC-32:
the empty input hashes to 0, the function is deterministic, the standard
test vector `"123456789"` hashes to `0xCBF43926`, and all 256 table entries
equal the reflected-polynomial (0xEDB88320) values bit-for-bit. -/
theorem c7_crc32 :
    crc32 [] = 0 ∧
    (∀ l1 l2 : List ℕ, l1 = l2 → crc32 l1 = crc32 l2) ∧
    crc32 [49, 50, 51, 52, 53, 54, 55, 56, 57] = 0xCBF43926 ∧
    (∀ i, i < 256 → crc32_tabFn i = crc32_poly_entry i) := by
  refine ⟨by decide, fun l1 l2 h => by rw [h], by decide, by decide⟩

/-- Witness for `c7_crc32`: determinism applied at a concrete list and the
table/polynomial agreement applied at index 255. -/
theorem c7_crc32_witness :
    crc32 [1, 2, 3] = crc32 [1, 2, 3] ∧
      crc32_tabFn 255 = crc32_poly_entry 255 :=
  ⟨c7_crc32.2.1 [1, 2, 3] [1, 2, 3] rfl, c7_crc32.2.2.2 255 (by decide)⟩

/-! ## GPT header check (`main` in `nvtegraparts.c`)

After `read(fd, gpt_block, GPT_BLOCK_SIZE)` the code validates the 8-byte
signature, then saves `crc_self`, zeroes the header's `crc_self` field
(bytes 16..19) and recomputes `crc32(gpt_h, le32toh(gpt_h->size))`.  The
CRC window length comes from the untrusted `size` field at offset 12 and is
not bounded by the 512 bytes read, so the window read is modelled with
`Option`: `none` means the C code reads past the end of `gpt_block`. -/

/-- `static const uint8_t GPT_SIGNATURE[8] = "EFI PART"`. -/
def GPT_SIGNATURE : List ℕ := [69, 70, 73, 32, 80, 65, 82, 84]

/-- `gpt_h->size`: u32 at offset 12. -/
def gptSize (block : List ℕ) : ℕ := le32 block 12

/-- `gpt_h->crc_self`: u32 at offset 16. -/
def gptCrcSelf (block : List ℕ) : ℕ := le32 block 16

/-- `gpt_h->crc_self = 0`: zero the four bytes of the CRC field. -/
def zeroCrcField (block : List ℕ) : List ℕ :=
  (((block.set 16 0).set 17 0).set 18 0).set 19 0

/-- Outcome of the GPT header validation. -/
inductive GptCheck where
  | badSignature
  | headerCrcMismatch (stored computed : ℕ)
  | ok (crc : ℕ)
  deriving DecidableEq, Repr

/-- The GPT header validation of `main`: signature check, then CRC check
over `gpt_h->size` bytes of the CRC-zeroed header block.  Returns `none`
when the CRC window extends past the block actually read. -/
def gpt_check_header (block : List ℕ) : Option GptCheck :=
  if block.take 8 ≠ GPT_SIGNATURE then some .badSignature
  else if gptSize block ≤ (zeroCrcField block).length then
    if crc32 ((zeroCrcField block).take (gptSize block)) ≠ gptCrcSelf block then
      some (.headerCrcMismatch (gptCrcSelf block)
        (crc32 ((zeroCrcField block).take (gptSize block))))
    else some (.ok (crc32 ((zeroCrcField block).take (gptSize block))))
  else none

/-- A 512-byte header block with a valid signature whose `size` field says
`1000`, larger than the 512 bytes actually read. -/
def c9blk : List ℕ :=
  GPT_SIGNATURE ++ [0, 0, 0, 0] ++ [0xe8, 3, 0, 0] ++ List.replicate 496 0

/-- C9: the CRC window length is taken from the untrusted `size` field and
is not bounded by the 512 bytes read: on `c9blk` (valid signature,
`size = 1000 > 512`) the checker reaches the out-of-range branch (`none`),
i.e. the C code would read past the end of `gpt_block`. -/
theorem c9_crc_window_overrun :
    c9blk.length = 512 ∧ c9blk.take 8 = GPT_SIGNATURE ∧
      gptSize c9blk = 1000 ∧ 512 < gptSize c9blk ∧
      gpt_check_header c9blk = none := by
  decide

/-- A 512-byte header block with a valid signature, `size = 12`, and the
stored self-CRC at bytes 16..19 equal (little-endian) to the CRC32 of its
first 12 bytes, which is `0x36393616`. -/
def c3blk : List ℕ :=
  GPT_SIGNATURE ++ [0, 0, 0, 0] ++ [12, 0, 0, 0] ++ [22, 54, 57, 54] ++
    List.replicate 492 0

/-- C3 counterexample: `c3blk` has a valid signature and its stored self-CRC
equals the CRC32 of the original header bytes, computed with the self-CRC
field zeroed over exactly `header.size` bytes.  Altering the single byte at
offset 24 — outside the self-CRC field — yields a block that the decoder
still *accepts* (`ok`), not `HeaderCrcMismatch`: the altered byte lies
beyond the `size = 12` CRC window, so the CRC cannot see it. -/
theorem c3_counterexample :
    c3blk.length = 512 ∧ c3blk.take 8 = GPT_SIGNATURE ∧
      gptCrcSelf c3blk = crc32 ((zeroCrcField c3blk).take (gptSize c3blk)) ∧
      c3blk.getD 24 0 = 0 ∧
      gpt_check_header (c3blk.set 24 1) = some (.ok 0x36393616) := by
  decide

/-! ### CRC32 detects any single-byte change inside its window

The step function `crc32_step` is injective in its register argument (for a
fixed input byte) and injective in its byte argument (for a fixed register),
because the 256 table entries have pairwise distinct top bytes and are
pairwise distinct.  Folding over a common suffix therefore preserves
distinctness of registers, so two equal-length byte lists differing in
exactly one byte have different CRCs. -/

/-- Every table entry fits in 32 bits. -/
theorem crc32_tabFn_lt (i : ℕ) : crc32_tabFn i < 2 ^ 32 := by
  by_cases h : i < 256
  · exact (by decide : ∀ j, j < 256 → crc32_tabFn j < 2 ^ 32) i h
  · have hlen : crc32_tab.length = 256 := by decide
    unfold crc32_tabFn
    rw [List.getD_eq_getElem?_getD, List.getElem?_eq_none (by omega)]
    decide

/-- The step function keeps the register below `2^32`. -/
theorem crc32_step_lt (crc b : ℕ) (h : crc < 2 ^ 32) :
    crc32_step crc b < 2 ^ 32 := by
  unfold crc32_step
  refine Nat.xor_lt_two_pow (crc32_tabFn_lt _) ?_
  calc crc >>> 8 ≤ crc := by
        rw [Nat.shiftRight_eq_div_pow]
        exact Nat.div_le_self _ _
    _ < 2 ^ 32 := h

/-- XOR cancellation on the right. -/
theorem xor_right_cancel {a x y : ℕ} (h : x ^^^ a = y ^^^ a) : x = y := by
  have h2 : (x ^^^ a) ^^^ a = (y ^^^ a) ^^^ a := by rw [h]
  rwa [Nat.xor_assoc, Nat.xor_self, Nat.xor_zero, Nat.xor_assoc, Nat.xor_self,
    Nat.xor_zero] at h2

/-- XOR cancellation on the left. -/
theorem xor_left_cancel {a x y : ℕ} (h : a ^^^ x = a ^^^ y) : x = y := by
  refine xor_right_cancel (a := a) ?_
  rw [Nat.xor_comm x a, Nat.xor_comm y a]
  exact h

/-- Right shift distributes over XOR. -/
theorem shiftRight_xor_distrib (x y n : ℕ) :
    (x ^^^ y) >>> n = (x >>> n) ^^^ (y >>> n) := by
  apply Nat.eq_of_testBit_eq
  intro i
  simp [Nat.testBit_shiftRight, Nat.testBit_xor]

/-- Values below `2^n` shift to zero by `n`. -/
theorem shiftRight_eq_zero_of_lt {x n : ℕ} (h : x < 2 ^ n) : x >>> n = 0 := by
  rw [Nat.shiftRight_eq_div_pow]
  exact Nat.div_eq_of_lt h

/-- Masking a byte-sized value with `0xFF` is the identity. -/
theorem and_255_eq_self {b : ℕ} (h : b < 256) : b &&& 0xFF = b := by
  have h255 : (0xFF : ℕ) = 2 ^ 8 - 1 := by norm_num
  rw [h255, Nat.and_pow_two_sub_one_of_lt_two_pow (by omega)]

/-- Low byte / high part decomposition of a natural number. -/
theorem byte_decomp (x : ℕ) : (x &&& 0xFF) + 256 * (x >>> 8) = x := by
  have h1 : x &&& 0xFF = x % 256 := by
    have h255 : (0xFF : ℕ) = 2 ^ 8 - 1 := by norm_num
    rw [h255, Nat.and_pow_two_sub_one_eq_mod]
  have h2 : x >>> 8 = x / 256 := by
    rw [Nat.shiftRight_eq_div_pow]
  rw [h1, h2]
  exact Nat.mod_add_div x 256

/-- The top bytes of the 256 table entries are pairwise distinct. -/
theorem crc32_tab_top_nodup :
    ((List.range 256).map (fun i => crc32_tabFn i >>> 24)).Nodup := by decide

/-- The 256 table entries are pairwise distinct. -/
theorem crc32_tab_nodup : ((List.range 256).map crc32_tabFn).Nodup := by decide

/-- Top-byte injectivity of the table on indices below 256. -/
theorem crc32_tab_top_inj {i j : ℕ} (hi : i < 256) (hj : j < 256)
    (h : crc32_tabFn i >>> 24 = crc32_tabFn j >>> 24) : i = j :=
  List.inj_on_of_nodup_map crc32_tab_top_nodup (List.mem_range.mpr hi)
    (List.mem_range.mpr hj) h

/-- Injectivity of the table on indices below 256. -/
theorem crc32_tab_inj {i j : ℕ} (hi : i < 256) (hj : j < 256)
    (h : crc32_tabFn i = crc32_tabFn j) : i = j :=
  List.inj_on_of_nodup_map crc32_tab_nodup (List.mem_range.mpr hi)
    (List.mem_range.mpr hj) h

/-- The table index used by a step is below 256. -/
theorem crc32_index_lt (r b : ℕ) : (r ^^^ b) &&& 0xFF < 256 :=
  Nat.and_lt_two_pow _ (show (0xFF : ℕ) < 2 ^ 8 by norm_num)

/-- `crc32_step` is injective in the register argument. -/
theorem crc32_step_inj_state {r r' b : ℕ} (hr : r < 2 ^ 32) (hr' : r' < 2 ^ 32)
    (h : crc32_step r b = crc32_step r' b) : r = r' := by
  have h8 : r >>> 8 < 2 ^ 24 := by
    rw [Nat.shiftRight_eq_div_pow]
    have : r / 2 ^ 8 < 2 ^ 24 := Nat.div_lt_of_lt_mul (by norm_num at hr ⊢; omega)
    simpa using this
  have h8' : r' >>> 8 < 2 ^ 24 := by
    rw [Nat.shiftRight_eq_div_pow]
    have : r' / 2 ^ 8 < 2 ^ 24 := Nat.div_lt_of_lt_mul (by norm_num at hr' ⊢; omega)
    simpa using this
  have htop : crc32_tabFn ((r ^^^ b) &&& 0xFF) >>> 24 =
      crc32_tabFn ((r' ^^^ b) &&& 0xFF) >>> 24 := by
    have e : crc32_step r b >>> 24 = crc32_step r' b >>> 24 := by rw [h]
    unfold crc32_step at e
    rw [shiftRight_xor_distrib, shiftRight_xor_distrib,
      (by rw [← Nat.shiftRight_add] : (r >>> 8) >>> 24 = r >>> 32),
      (by rw [← Nat.shiftRight_add] : (r' >>> 8) >>> 24 = r' >>> 32),
      shiftRight_eq_zero_of_lt hr, shiftRight_eq_zero_of_lt hr',
      Nat.xor_zero, Nat.xor_zero] at e
    exact e
  have hidx : (r ^^^ b) &&& 0xFF = (r' ^^^ b) &&& 0xFF :=
    crc32_tab_top_inj (crc32_index_lt r b) (crc32_index_lt r' b) htop
  have htab : crc32_tabFn ((r ^^^ b) &&& 0xFF) =
      crc32_tabFn ((r' ^^^ b) &&& 0xFF) := by rw [hidx]
  have hhi : r >>> 8 = r' >>> 8 := by
    unfold crc32_step at h
    rw [htab] at h
    exact xor_left_cancel h
  have hlo : r &&& 0xFF = r' &&& 0xFF := by
    rw [Nat.and_xor_distrib_right, Nat.and_xor_distrib_right] at hidx
    exact xor_right_cancel hidx
  calc r = (r &&& 0xFF) + 256 * (r >>> 8) := (byte_decomp r).symm
    _ = (r' &&& 0xFF) + 256 * (r' >>> 8) := by rw [hlo, hhi]
    _ = r' := byte_decomp r'

/-- `crc32_step` is injective in the byte argument, for bytes below 256. -/
theorem crc32_step_inj_byte {r b b' : ℕ} (hb : b < 256) (hb' : b' < 256)
    (hne : b ≠ b') : crc32_step r b ≠ crc32_step r b' := by
  intro h
  unfold crc32_step at h
  have htab := xor_right_cancel h
  have hidx : (r ^^^ b) &&& 0xFF = (r ^^^ b') &&& 0xFF :=
    crc32_tab_inj (crc32_index_lt r b) (crc32_index_lt r b') htab
  rw [Nat.and_xor_distrib_right, Nat.and_xor_distrib_right] at hidx
  have hbb := xor_left_cancel hidx
  rw [and_255_eq_self hb, and_255_eq_self hb'] at hbb
  exact hne hbb

/-- Folding the step function keeps the register below `2^32`. -/
theorem crcFold_lt : ∀ (l : List ℕ) (r : ℕ), r < 2 ^ 32 →
    List.foldl crc32_step r l < 2 ^ 32
  | [], _, hr => hr
  | b :: l, r, hr => crcFold_lt l (crc32_step r b) (crc32_step_lt r b hr)

/-- Folding a common byte list preserves distinctness of registers. -/
theorem crcFold_inj : ∀ (l : List ℕ) {r r' : ℕ}, r < 2 ^ 32 → r' < 2 ^ 32 →
    r ≠ r' → List.foldl crc32_step r l ≠ List.foldl crc32_step r' l
  | [], _, _, _, _, hne => hne
  | b :: l, r, r', hr, hr', hne =>
    crcFold_inj l (crc32_step_lt r b hr) (crc32_step_lt r' b hr')
      (fun he => hne (crc32_step_inj_state hr hr' he))

/-- Two equal-length byte lists that differ in exactly one byte position
have different CRC32 values. -/
theorem crc32_single_byte_change (pre suf : List ℕ) {b b' : ℕ}
    (hb : b < 256) (hb' : b' < 256) (hne : b ≠ b') :
    crc32 (pre ++ b :: suf) ≠ crc32 (pre ++ b' :: suf) := by
  unfold crc32
  intro h
  have h2 := xor_right_cancel h
  rw [List.foldl_append, List.foldl_append, List.foldl_cons,
    List.foldl_cons] at h2
  have hr : List.foldl crc32_step 0xFFFFFFFF pre < 2 ^ 32 :=
    crcFold_lt pre 0xFFFFFFFF (by norm_num)
  exact crcFold_inj suf (crc32_step_lt _ _ hr) (crc32_step_lt _ _ hr)
    (crc32_step_inj_byte hb hb' hne) h2

/-! ### List helpers for the header-alteration theorem -/

/-- Setting at an index at or past the taken prefix leaves the prefix. -/
theorem take_set_of_le (a : ℕ) {n m : ℕ} (l : List ℕ) (h : m ≤ n) :
    (l.set n a).take m = l.take m := by
  apply List.ext_getElem?
  intro i
  rw [List.getElem?_take, List.getElem?_take]
  split
  · next hi => rw [List.getElem?_set_ne (by omega)]
  · rfl

/-- Setting inside the taken prefix commutes with `take`. -/
theorem take_set_comm (l : List ℕ) (k v s : ℕ) (h : k < s) :
    (l.set k v).take s = (l.take s).set k v := by
  apply List.ext_getElem?
  intro i
  rw [List.getElem?_take, List.getElem?_set, List.getElem?_set]
  by_cases hik : k = i
  · subst hik
    rw [if_pos rfl, if_pos rfl, if_pos h, List.length_take]
    by_cases hkl : k < l.length
    · rw [if_pos hkl, if_pos (lt_min h hkl)]
    · rw [if_neg hkl,
        if_neg (fun hcon => hkl (lt_of_lt_of_le hcon (min_le_right s l.length)))]
  · rw [if_neg hik, if_neg hik, List.getElem?_take]

/-- Reading at an index other than the one set is unchanged. -/
theorem getD_set_ne {l : List ℕ} {k i v : ℕ} (h : k ≠ i) :
    (l.set k v).getD i 0 = l.getD i 0 := by
  rw [List.getD_eq_getElem?_getD, List.getD_eq_getElem?_getD,
    List.getElem?_set_ne h]

/-- `le32` does not see a byte set outside its 4-byte window. -/
theorem le32_set_outside {l : List ℕ} {k v off : ℕ}
    (h : k < off ∨ off + 3 < k) :
    le32 (l.set k v) off = le32 l off := by
  unfold le32
  rw [getD_set_ne (by omega), getD_set_ne (by omega), getD_set_ne (by omega),
    getD_set_ne (by omega)]

/-- Zeroing the CRC field preserves the block length. -/
theorem zeroCrc_length (block : List ℕ) :
    (zeroCrcField block).length = block.length := by
  simp [zeroCrcField]

/-- Setting a byte outside the CRC field commutes with zeroing the field. -/
theorem zeroCrc_set_comm {block : List ℕ} {k v : ℕ} (h : k < 16 ∨ 19 < k) :
    zeroCrcField (block.set k v) = (zeroCrcField block).set k v := by
  unfold zeroCrcField
  rw [List.set_comm _ _ _ (show k ≠ 16 by omega),
    List.set_comm _ _ _ (show k ≠ 17 by omega),
    List.set_comm _ _ _ (show k ≠ 18 by omega),
    List.set_comm _ _ _ (show k ≠ 19 by omega)]

/-- C3 (amended): take a 512-byte GPT header block of bytes with a valid
signature whose stored self-CRC matches (i.e. the checker returns `ok`).
Altering any single byte at an offset `k` that lies inside the
`header.size` CRC window, outside the signature (`8 ≤ k`), and outside the
`size` and self-CRC fields (`k < 12 ∨ 20 ≤ k`) yields a block the decoder
rejects with `HeaderCrcMismatch`.  (Amended from the claim: bytes outside
the CRC window — see the counterexample — or inside the size field are not
necessarily detected, and altering the signature would be rejected as
`BadSignature` instead.) -/
theorem c3_header_crc_detects_byte_change (block : List ℕ)
    (hlen : block.length = 512) (hbytes : ∀ b ∈ block, b < 256)
    (hok : ∃ c, gpt_check_header block = some (GptCheck.ok c))
    (k v : ℕ) (hk8 : 8 ≤ k) (hkw : k < gptSize block)
    (hkf : k < 12 ∨ 20 ≤ k) (hv : v < 256) (hvne : v ≠ block.getD k 0) :
    ∃ stored computed,
      gpt_check_header (block.set k v) =
        some (GptCheck.headerCrcMismatch stored computed) ∧
      computed ≠ stored := by
  obtain ⟨c, hc⟩ := hok
  unfold gpt_check_header at hc
  by_cases h1 : block.take 8 ≠ GPT_SIGNATURE
  · rw [if_pos h1] at hc
    simp at hc
  · rw [if_neg h1] at hc
    push_neg at h1
    by_cases h2 : gptSize block ≤ (zeroCrcField block).length
    · rw [if_pos h2] at hc
      by_cases h3 :
          crc32 ((zeroCrcField block).take (gptSize block)) ≠ gptCrcSelf block
      · rw [if_pos h3] at hc
        simp at hc
      · push_neg at h3
        -- the CRC window of the original block
        set w : List ℕ := (zeroCrcField block).take (gptSize block) with hw
        have hzl : (zeroCrcField block).length = 512 := by
          rw [zeroCrc_length, hlen]
        have hs512 : gptSize block ≤ 512 := by omega
        have hwl : w.length = gptSize block := by
          rw [hw, List.length_take]
          omega
        have hkwl : k < w.length := by omega
        -- every byte of the zeroed block (hence of the window) is a byte
        have hzb : ∀ x ∈ zeroCrcField block, x < 256 := by
          intro x hx
          unfold zeroCrcField at hx
          rcases List.mem_or_eq_of_mem_set hx with hx | h0
          · rcases List.mem_or_eq_of_mem_set hx with hx | h0
            · rcases List.mem_or_eq_of_mem_set hx with hx | h0
              · rcases List.mem_or_eq_of_mem_set hx with hx | h0
                · exact hbytes x hx
                · omega
              · omega
            · omega
          · omega
        have hbk256 : w[k] < 256 :=
          hzb _ (List.mem_of_mem_take (List.getElem_mem hkwl))
        -- the window byte at k is the block byte at k
        have hgetw : w.getD k 0 = block.getD k 0 := by
          rw [hw, List.getD_eq_getElem?_getD, List.getElem?_take, if_pos hkw,
            ← List.getD_eq_getElem?_getD]
          unfold zeroCrcField
          rw [getD_set_ne (by omega), getD_set_ne (by omega),
            getD_set_ne (by omega), getD_set_ne (by omega)]
        have hgd : w.getD k 0 = w[k] := List.getD_eq_getElem w 0 hkwl
        have hvnew : v ≠ w[k] := by
          rw [← hgd, hgetw]
          exact hvne
        -- the CRCs of the altered and original windows differ
        have hne2 : crc32 (w.set k v) ≠ crc32 w := by
          have hdec1 : w.set k v = w.take k ++ v :: w.drop (k + 1) := by
            rw [List.set_eq_take_append_cons_drop, if_pos hkwl]
          have hdec2 : w = w.take k ++ w[k] :: w.drop (k + 1) := by
            conv_lhs => rw [← List.take_append_drop k w,
              List.drop_eq_getElem_cons hkwl]
          rw [hdec1]
          conv_rhs => rw [hdec2]
          exact crc32_single_byte_change (w.take k) (w.drop (k + 1)) hv hbk256
            hvnew
        -- the altered block runs into the CRC-mismatch branch
        have hsig' : (block.set k v).take 8 = GPT_SIGNATURE := by
          rw [take_set_of_le _ _ (by omega)]
          exact h1
        have hsz' : gptSize (block.set k v) = gptSize block :=
          le32_set_outside (by unfold gptSize at *; omega)
        have hself' : gptCrcSelf (block.set k v) = gptCrcSelf block :=
          le32_set_outside (by omega)
        have hzero' : zeroCrcField (block.set k v) =
            (zeroCrcField block).set k v := zeroCrc_set_comm (by omega)
        have hwin' : (zeroCrcField (block.set k v)).take
            (gptSize (block.set k v)) = w.set k v := by
          rw [hsz', hzero', take_set_comm _ _ _ _ hkw, hw]
        have hlen2 : gptSize (block.set k v) ≤
            (zeroCrcField (block.set k v)).length := by
          rw [hsz', hzero', List.length_set]
          omega
        have hcond : crc32 ((zeroCrcField (block.set k v)).take
            (gptSize (block.set k v))) ≠ gptCrcSelf (block.set k v) := by
          rw [hwin', hself', ← h3]
          exact hne2
        refine ⟨gptCrcSelf block, crc32 (w.set k v), ?_, ?_⟩
        · unfold gpt_check_header
          rw [if_neg (by rw [hsig']; simp), if_pos hlen2, if_pos hcond,
            hwin', hself']
        · rw [← h3]
          exact hne2
    · rw [if_neg h2] at hc
      simp at hc

/-- Witness for `c3_header_crc_detects_byte_change` at `c3blk`, altering
the in-window byte at offset 9 to 5. -/
theorem c3_header_crc_detects_byte_change_witness :
    ∃ stored computed,
      gpt_check_header (c3blk.set 9 5) =
        some (GptCheck.headerCrcMismatch stored computed) ∧
      computed ≠ stored :=
  c3_header_crc_detects_byte_change c3blk (by decide) (by decide)
    ⟨0x36393616, by decide⟩ 9 5 (by decide) (by decide) (by decide)
    (by decide) (by decide)

/-! ## Config-block decoder (`trdx-configblock.c`)

`struct toradex_tag` is `uint16_t len:14; uint8_t flags:2; uint16_t id;`
packed, little-endian: bytes 0–1 hold `len` in the low 14 bits and `flags`
in the top 2 bits; bytes 2–3 hold `id`.  `read_config_block` reads 512
bytes, checks the sentinel tag at offset 0, then walks tags from offset 4
while the valid flag is set, copying payloads for the MAC and HW tags and
advancing the cursor by `4 + len*4`; neither the tag-header reads nor the
payload copies are bounded by the 512-byte block, so out-of-range accesses
are modelled as `none`.  The `read` return value is a C `ssize_t` stored
into a `size_t` variable, modelled by reduction modulo `2^64`. -/

/-- `#define TRDX_CFG_BLOCK_MAX_SIZE 512`. -/
def TRDX_CFG_BLOCK_MAX_SIZE : ℕ := 512

/-- `#define TAG_VALID 0xcf01`. -/
def TAG_VALID : ℕ := 0xcf01

/-- `#define TAG_MAC 0x0000`. -/
def TAG_MAC : ℕ := 0x0000

/-- `#define TAG_HW 0x0008`. -/
def TAG_HW : ℕ := 0x0008

/-- `#define TAG_FLAG_VALID 0x1`. -/
def TAG_FLAG_VALID : ℕ := 0x1

/-- `tag->len`: low 14 bits of the first two tag bytes. -/
def tagLen (block : List ℕ) (off : ℕ) : ℕ := le16 block off % 16384

/-- `tag->flags`: top 2 bits of the first two tag bytes. -/
def tagFlags (block : List ℕ) (off : ℕ) : ℕ := le16 block off / 16384

/-- `tag->id`: little-endian u16 at bytes 2–3 of the tag. -/
def tagId (block : List ℕ) (off : ℕ) : ℕ := le16 block (off + 2)

/-- Read `n` bytes at `off` (a `memcpy` source); `none` if out of range. -/
def readBytes (block : List ℕ) (off n : ℕ) : Option (List ℕ) :=
  if off + n ≤ block.length then some ((block.drop off).take n) else none

/-- Read a 4-byte tag header at `off`; `none` if out of range. -/
def readTag (block : List ℕ) (off : ℕ) : Option (ℕ × ℕ × ℕ) :=
  if off + 4 ≤ block.length then
    some (tagLen block off, tagFlags block off, tagId block off)
  else none

/-- 32-bit byte swap, as `ntohl` performs on the little-endian targets. -/
def bswap32 (x : ℕ) : ℕ :=
  ((x &&& 0xFF) <<< 24) ||| (((x >>> 8) &&& 0xFF) <<< 16) |||
    (((x >>> 16) &&& 0xFF) <<< 8) ||| ((x >>> 24) &&& 0xFF)

/-- `eth_addr.nic`: the second 24-bit bit-field of the packed 6-byte
`struct toradex_eth_addr`, i.e. bytes 3–5 little-endian. -/
def ethNic (e : List ℕ) : ℕ :=
  e.getD 3 0 + 256 * e.getD 4 0 + 65536 * e.getD 5 0

/-- Outcome of `read_config_block`. -/
inductive CfgResult where
  | ioError
  | noConfigBlock
  | found (hw eth : List ℕ) (serial : ℕ)
  deriving DecidableEq, Repr

/-- The `while (true)` tag walk of `read_config_block`: read the tag header
at `tagOff`, stop when the valid flag is unset, otherwise advance past the
4-byte header, dispatch on the id (MAC copies 6 payload bytes and derives
`serial = ntohl(eth_addr.nic) >> 8`, HW copies 8 payload bytes, unknown ids
are skipped) and advance the cursor by `len*4`.  The fuel argument only
bounds the structural recursion: each iteration needs `tagOff + 4 ≤ 512`
and advances `tagOff` by at least 4, so `block.length / 4 + 1` steps are
never exhausted before the walk breaks or goes out of range. -/
def cfgWalk (block : List ℕ) :
    ℕ → ℕ → List ℕ → List ℕ → ℕ → Option (List ℕ × List ℕ × ℕ)
  | 0, _, _, _, _ => none
  | fuel + 1, tagOff, hw, eth, serial =>
    match readTag block tagOff with
    | none => none
    | some (len, flags, id) =>
      if flags ≠ TAG_FLAG_VALID then some (hw, eth, serial)
      else if id = TAG_MAC then
        match readBytes block (tagOff + 4) 6 with
        | none => none
        | some e =>
          cfgWalk block fuel (tagOff + 4 + len * 4) hw e
            (bswap32 (ethNic e) >>> 8)
      else if id = TAG_HW then
        match readBytes block (tagOff + 4) 8 with
        | none => none
        | some h => cfgWalk block fuel (tagOff + 4 + len * 4) h eth serial
      else cfgWalk block fuel (tagOff + 4 + len * 4) hw eth serial

/-- `read_config_block`, given the raw `read(2)` return value (a `ssize_t`:
`-1` on failure, otherwise the number of bytes read) and the block bytes.
The C code stores the return into `size_t len` — modelled by reduction
modulo `2^64` — and checks `len < read_size`.  The sentinel condition is
the code's `if (tag->flags != TAG_FLAG_VALID && tag->id != TAG_VALID)`. -/
def read_config_block (readRet : ℤ) (block : List ℕ) : Option CfgResult :=
  if (readRet % 18446744073709551616).toNat < TRDX_CFG_BLOCK_MAX_SIZE then
    some .ioError
  else
    match readTag block 0 with
    | none => none
    | some (_, flags, id) =>
      if flags ≠ TAG_FLAG_VALID ∧ id ≠ TAG_VALID then some .noConfigBlock
      else
        match cfgWalk block (block.length / 4 + 1) 4 (List.replicate 8 0)
            (List.replicate 6 0) 0 with
        | none => none
        | some (hw, eth, serial) => some (.found hw eth serial)

/-- A 512-byte block whose first tag has id `0xcf01` (the sentinel) but the
valid flag **unset**: bytes `00 00 01 cf`, rest zero. -/
def c2blk : List ℕ := [0, 0, 1, 0xcf] ++ List.replicate 508 0

/-- C2 (code bug): the sentinel tag of `c2blk` has `id = TAG_VALID` but its
valid flag is not set, so per the spec the block is absent and the result
must be `NoConfigBlock` with no tags processed.  The code's condition
`flags != TAG_FLAG_VALID && tag->id != TAG_VALID` (`&&` instead of `||`)
lets this block through: the decoder enters the tag walk and returns a
parsed (empty) config block. -/
theorem c2_sentinel_check_bug :
    c2blk.length = 512 ∧ tagId c2blk 0 = TAG_VALID ∧
      tagFlags c2blk 0 ≠ TAG_FLAG_VALID ∧
      read_config_block 512 c2blk =
        some (.found (List.replicate 8 0) (List.replicate 6 0) 0) ∧
      read_config_block 512 c2blk ≠ some .noConfigBlock := by
  decide

/-- C8 (code bug): a failed `read(2)` returns `-1`, which the assignment to
`size_t len` turns into `2^64 - 1`, so the short-read check `len < 512`
does not fire: the decoder proceeds to examine the sentinel tag (here
returning `NoConfigBlock` on an all-zero buffer) instead of stopping with
`IoError`.  A genuine short read (e.g. 511 bytes) is caught. -/
theorem c8_read_failure_not_caught :
    read_config_block (-1) (List.replicate 512 0) =
        some CfgResult.noConfigBlock ∧
      read_config_block (-1) (List.replicate 512 0) ≠
        some CfgResult.ioError ∧
      read_config_block 511 (List.replicate 512 0) =
        some CfgResult.ioError := by
  decide

/-- A 512-byte block with a fully valid sentinel (`00 40 01 cf`: flags 1,
id `0xcf01`) and a second valid-flagged tag at offset 4 (`7e 40 05 00`:
flags 1, unknown id 5, `len = 126`), which advances the cursor to
`4 + 4 + 126*4 = 512`. -/
def c10blk : List ℕ :=
  [0x00, 0x40, 0x01, 0xcf] ++ [0x7e, 0x40, 5, 0] ++ List.replicate 504 0

/-- C10: the tag walk never checks its cursor against the 512-byte block:
on `c10blk` the valid-flagged tag at offset 4 advances the cursor to
exactly 512 and the walk then reads a tag header outside the block — the
out-of-range branch (`none`) is reached. -/
theorem c10_tag_walk_overrun :
    c10blk.length = 512 ∧ tagFlags c10blk 4 = TAG_FLAG_VALID ∧
      tagLen c10blk 4 = 126 ∧ 4 + 4 + tagLen c10blk 4 * 4 = 512 ∧
      read_config_block 512 c10blk = none := by
  decide

/-! ## UTF-16 name decoder (`c16_to_string` in `nvtegraparts.c`)

The conversion of one UTF-16 code unit to the local multibyte encoding
(`c16rtomb`) is an external collaborator, modelled by a function
`enc : ℕ → List ℕ` returning the bytes stored (`ret = (enc u).length`,
with `ret = 0` or `ret > MB_CUR_MAX` modelling the failure returns).  The
C loop is `while (buf) { ... buf++; }` — the condition tests the pointer,
which is never null, so the loop is exited only by a failed conversion or
by the output limit `pos >= len - 1`; `len - 1` is `size_t` arithmetic,
modelled modulo `2^64`.  Reading a code unit past the provided source
array is modelled as `none`. -/

/-- The loop of `c16_to_string`: `buf` is the remaining source, `pos` the
output cursor, `acc` the bytes written so far (`str[0..pos)`). -/
def c16_to_string_loop (enc : ℕ → List ℕ) (mbCurMax lenM1 : ℕ) :
    List ℕ → ℕ → List ℕ → Option (List ℕ)
  | [], _, _ => none
  | u :: rest, pos, acc =>
    if (enc u).length = 0 ∨ (enc u).length > mbCurMax then some acc
    else
      if lenM1 ≤ pos + min (enc u).length (lenM1 - pos) then
        some (acc ++ (enc u).take (min (enc u).length (lenM1 - pos)))
      else
        c16_to_string_loop enc mbCurMax lenM1 rest
          (pos + min (enc u).length (lenM1 - pos))
          (acc ++ (enc u).take (min (enc u).length (lenM1 - pos)))

/-- `c16_to_string(buf, str, len)`: returns the bytes written to `str`
before the terminating NUL, or `none` if the loop reads past the provided
source array. -/
def c16_to_string (enc : ℕ → List ℕ) (mbCurMax : ℕ) (buf : List ℕ)
    (len : ℕ) : Option (List ℕ) :=
  c16_to_string_loop enc mbCurMax ((len + (2 ^ 64 - 1)) % 2 ^ 64) buf 0 []

/-- The single-byte locale's `c16rtomb`: code units below 128 encode as one
byte (the null unit encodes as one NUL byte, per C11), others fail. -/
def asciiEnc (u : ℕ) : List ℕ := if u < 128 then [u] else []

/-- A 36-code-unit GPT entry name `A`, NUL, `B`, then 33 NULs. -/
def c6bufA : List ℕ := [65, 0, 66] ++ List.replicate 33 0

/-- The same name with the unit *after* the first null changed to `C`. -/
def c6bufB : List ℕ := [65, 0, 67] ++ List.replicate 33 0

/-- C6 (code bug): `c6bufA` and `c6bufB` are 36-code-unit names that agree
on every unit up to and including the first null (at index 1) and differ
only at index 2, yet the decoder — called with the caller's 20-byte output
buffer — produces different outputs: `while (buf)` tests the pointer
instead of the code unit, and `c16rtomb` encodes the null unit as one NUL
byte and continues, so the output bytes are *not* derived only from code
units before the first null.  (The decoder does stay within the array: it
returns `some`, having read at most 19 of the 36 units.) -/
theorem c6_null_does_not_stop :
    c6bufA.length = 36 ∧ c6bufB.length = 36 ∧
      c6bufA.take 2 = c6bufB.take 2 ∧ c6bufA.getD 1 0 = 0 ∧
      c16_to_string asciiEnc 1 c6bufA 20 =
        some ([65, 0, 66] ++ List.replicate 16 0) ∧
      c16_to_string asciiEnc 1 c6bufB 20 =
        some ([65, 0, 67] ++ List.replicate 16 0) ∧
      c16_to_string asciiEnc 1 c6bufA 20 ≠
        c16_to_string asciiEnc 1 c6bufB 20 := by
  decide

end ApalisTools
